import Mathlib

/-!
# Verification of the live audio session pipeline

A shallow embedding of the repository's live-session hook
(`src/hooks/use-live-api.ts`), its visualizer component
(`src/components/Visualizer.tsx`) and the audio utility functions it
imports, together with proofs of the specified properties.

Machine state (the React refs and state cells of `useLiveSession`) is
modelled as an explicit record `SessionState`; the event handlers
(`connect`, `disconnect`, `onopen`, `onmessage`, `onclose`, `onerror`,
the volume-polling tick) become functions on that record.  `setStatus` /
`setVolume` are modelled as immediate field updates, matching the
single-threaded cooperative scheduling model.  Audio samples and clock
times are modelled as rationals.  Fallible operations
(`AudioBufferSourceNode.stop`, `decodeAudioData`) return `Except`.
-/

namespace LiveApi

/-- The type `LiveSessionStatus` from `src/types.ts`:
`'disconnected' | 'connecting' | 'connected' | 'error'`. -/
inductive LiveSessionStatus where
  | disconnected
  | connecting
  | connected
  | error
deriving DecidableEq, Repr

/-- An `AudioBufferSourceNode` held in `sourcesRef`: its buffer's duration,
the time passed to `source.start`, and whether playback has already
naturally ended (in which case a further `stop()` may raise). -/
structure SourceNode where
  duration : ℚ
  startTime : ℚ
  ended : Bool
deriving DecidableEq, Repr

/-- Model of `source.stop()`: raises when the node has already naturally ended
(the benign race the code guards against with `try`/`catch`). -/
def stopNode (n : SourceNode) : Except String Unit :=
  if n.ended then Except.error "InvalidStateError" else Except.ok ()

/-- A stop wrapped in the handler's catch-all (`try ... catch` with the
exception swallowed). -/
def tryStop (n : SourceNode) : Except String Unit :=
  match stopNode n with
  | Except.ok u => Except.ok u
  | Except.error _ => Except.ok ()

/-- Stopping every node of a list, each stop with its exception swallowed
(the `forEach` over `sourcesRef.current`). -/
def stopAllNodes : List SourceNode → Except String Unit
  | [] => Except.ok ()
  | n :: ns => do
    let _ ← tryStop n
    stopAllNodes ns

/-- The Playback Scheduler's state: the `nextStartTimeRef` cursor and the
`sourcesRef` in-flight set (as a list, in scheduling order). -/
structure SchedulerState where
  nextStartTime : ℚ
  inFlight : List SourceNode
deriving DecidableEq, Repr

/-- The interruption handler of `onmessage`
(`src/hooks/use-live-api.ts` lines 198–204): force-stop every in-flight
source (exceptions swallowed), clear the set, reset the cursor to zero. -/
def interrupt (st : SchedulerState) : Except String SchedulerState := do
  let _ ← stopAllNodes st.inFlight
  Except.ok { nextStartTime := 0, inFlight := [] }

/-- One scheduling step of `onmessage` (lines 175–194): the start time is
`max nextStartTime clock` (`clock` is `ctx.currentTime`), the node starts
there, the cursor advances by the buffer's duration, and the node joins
the in-flight set.  Returns the new state and the start time used. -/
def scheduleBuffer (clock : ℚ) (d : ℚ) (st : SchedulerState) :
    SchedulerState × ℚ :=
  let start := max st.nextStartTime clock
  ({ nextStartTime := start + d,
     inFlight := st.inFlight ++ [{ duration := d, startTime := start, ended := false }] },
   start)

/-- Scheduling a sequence of buffers of the given durations, with the
output clock held fixed at `clock`. -/
def scheduleAll (clock : ℚ) (ds : List ℚ) (st : SchedulerState) : SchedulerState :=
  ds.foldl (fun s d => (scheduleBuffer clock d s).1) st

/-- The list of start times of buffers of durations `ds` scheduled
back-to-back from cursor position `t`: the cumulative sums
`t, t + d₁, t + d₁ + d₂, …`. -/
def cumStarts (t : ℚ) : List ℚ → List ℚ
  | [] => []
  | d :: ds => t :: cumStarts (t + d) ds

/-- The in-flight nodes produced by scheduling durations `ds`
back-to-back from cursor position `t`. -/
def mkHandles (t : ℚ) : List ℚ → List SourceNode
  | [] => []
  | d :: ds => { duration := d, startTime := t, ended := false } :: mkHandles (t + d) ds

/-! ## PCM encoder / audio decoder

Modelled from the spec: `createBlob`, `decode` and `decodeAudioData` live
in `src/utils/audio-utils.ts`, which is not part of the given sources
(only its import and call sites in `src/hooks/use-live-api.ts` are).
The definitions below follow §4.1 and §4.2 of the specification: samples
are 16-bit signed little-endian integers, clamped on encode, normalized
to `[-1, 1]` on decode; the decoder de-interleaves channels by reading
sample `i` of channel `c` at flat index `i * channelCount + c` and fails
when the byte length is not a whole multiple of
`sampleWidthBytes * channelCount` (= `2 * channelCount`); transport
base64 is treated as the identity on byte sequences. -/

/-- Clamp an integer into `[lo, hi]`. -/
def clampInt (v lo hi : ℤ) : ℤ := max lo (min v hi)

/-- Modelled from the spec (§4.1): quantize one floating-point sample in
`[-1, 1]` to a 16-bit signed integer, clamped to the representable
range `[-32768, 32767]`. -/
def encodeSample (s : ℚ) : ℤ := clampInt ⌊s * 32768⌋ (-32768) 32767

/-- Modelled from the spec (§4.2): normalize one 16-bit signed sample
back to the floating-point range `[-1, 1]`. -/
def decodeSample (v : ℤ) : ℚ := (v : ℚ) / 32768

/-- The two little-endian bytes of a 16-bit signed sample. -/
def sampleToBytes (v : ℤ) : List ℕ :=
  [(v % 65536).toNat % 256, (v % 65536).toNat / 256]

/-- Serialize a list of 16-bit signed samples to little-endian bytes. -/
def samplesToBytes : List ℤ → List ℕ
  | [] => []
  | v :: vs => sampleToBytes v ++ samplesToBytes vs

/-- Read one 16-bit signed little-endian sample from two bytes. -/
def bytesToInt16 (b0 b1 : ℕ) : ℤ :=
  let u := b0 % 256 + 256 * (b1 % 256)
  if u < 32768 then (u : ℤ) else (u : ℤ) - 65536

/-- Parse a byte sequence as consecutive 16-bit signed little-endian
samples (a trailing odd byte yields no further sample). -/
def bytesToSamples : List ℕ → List ℤ
  | b0 :: b1 :: rest => bytesToInt16 b0 b1 :: bytesToSamples rest
  | _ => []

/-- Modelled from the spec (§4.1): `createBlob` — encode a PCM frame of
floats in `[-1, 1]` as 16-bit signed little-endian bytes, tagged with a
fixed MIME-style descriptor. -/
def createBlobData (frame : List ℚ) : List ℕ :=
  samplesToBytes (frame.map encodeSample)

/-- The fixed MIME-style descriptor attached by `createBlob`. -/
def createBlobMimeType : String := "audio/pcm;rate=16000"

/-- A decoded playable buffer: per-channel floating-point samples and its
sample rate. -/
structure AudioBuffer where
  channelData : List (List ℚ)
  sampleRate : ℕ
deriving DecidableEq, Repr

/-- The buffer's `duration`: frames per channel divided by sample rate. -/
def AudioBuffer.duration (b : AudioBuffer) : ℚ :=
  ((b.channelData.headD []).length : ℚ) / (b.sampleRate : ℚ)

/-- Channel `c` of `flat` interleaved data: sample `i` is read from flat
index `i * channels + c`. -/
def deinterleave (c channels : ℕ) (flat : List ℚ) : List ℚ :=
  (List.range (flat.length / channels)).map (fun i => flat.getD (i * channels + c) 0)

/-- Modelled from the spec (§4.2): `decodeAudioData` — reject a byte
sequence whose length is not a whole multiple of `2 * channels`,
otherwise interpret it as 16-bit signed little-endian samples,
normalize to `[-1, 1]` and de-interleave into `channels` channels at
the given sample rate. -/
def decodeAudioData (bytes : List ℕ) (sampleRate channels : ℕ) :
    Except String AudioBuffer :=
  if bytes.length % (2 * channels) = 0 then
    Except.ok
      { channelData :=
          (List.range channels).map
            (fun c => deinterleave c channels ((bytesToSamples bytes).map decodeSample)),
        sampleRate := sampleRate }
  else
    Except.error "Invalid byte length for audio data"

/-! ## Session state and lifecycle (`useLiveSession`) -/

/-- The mutable cells of `useLiveSession`: the two React state cells
(`status`, `volume`) and the refs.  Resource refs that the claims only
need to observe as held / not held are `Option Unit`. -/
structure SessionState where
  status : LiveSessionStatus
  volume : ℚ
  inputAudioContext : Option Unit
  outputAudioContext : Option Unit
  mediaStream : Option Unit
  processor : Option Unit
  inputSource : Option Unit
  outputGain : Option Unit
  analyzer : Option Unit
  session : Option Unit
  nextStartTime : ℚ
  sources : List SourceNode
  animationFrame : Option ℕ
  connectedFlag : Bool
deriving DecidableEq, Repr

/-- The initial state of the hook: everything null, `status`
`'disconnected'`, `volume` 0. -/
def initialState : SessionState :=
  { status := LiveSessionStatus.disconnected
    volume := 0
    inputAudioContext := none
    outputAudioContext := none
    mediaStream := none
    processor := none
    inputSource := none
    outputGain := none
    analyzer := none
    session := none
    nextStartTime := 0
    sources := []
    animationFrame := none
    connectedFlag := false }

/-- Teardown `disconnect` (lines 60–103) as a pure state transformer: clear the
connected flag, release processor, input source, microphone tracks and
both audio contexts, stop (exceptions swallowed) and clear all in-flight
sources, cancel the pending animation frame, set `status` to
`'disconnected'` and `volume` to 0.  Each release is guarded by a null
check in the source; unconditional assignment to `none` is equivalent. -/
def disconnect (s : SessionState) : SessionState :=
  { s with
      connectedFlag := false
      processor := none
      inputSource := none
      mediaStream := none
      inputAudioContext := none
      outputAudioContext := none
      sources := []
      animationFrame := none
      status := LiveSessionStatus.disconnected
      volume := 0 }

/-- Variant of `disconnect` with its fallible step explicit: the only operation in
its body that can raise is `source.stop()`, and each such call is
wrapped in `try`/`catch`. -/
def disconnectE (s : SessionState) : Except String SessionState := do
  let s1 := { s with
                connectedFlag := false
                processor := none
                inputSource := none
                mediaStream := none
                inputAudioContext := none
                outputAudioContext := none }
  let _ ← stopAllNodes s1.sources
  let s2 := { s1 with sources := [], animationFrame := none }
  Except.ok { s2 with status := LiveSessionStatus.disconnected, volume := 0 }

/-- Handler `onclose` (lines 206–209): just calls `disconnect`. -/
def onclose (s : SessionState) : SessionState := disconnect s

/-- Handler `onerror` (lines 210–214): `disconnect()` then `setStatus('error')`. -/
def onerror (s : SessionState) : SessionState :=
  { disconnect s with status := LiveSessionStatus.error }

/-- Handler `onopen` (lines 143–167): `setStatus('connected')`, set the connected
flag, create and wire the input source node and the script processor. -/
def onopen (s : SessionState) : SessionState :=
  { s with
      status := LiveSessionStatus.connected
      connectedFlag := true
      inputSource := some ()
      processor := some () }

/-- The environment a connect attempt runs in: whether
`getUserMedia` resolves (microphone permission), the analyser's current
frequency average, and the id `requestAnimationFrame` returns. -/
structure ConnectEnv where
  micGranted : Bool
  freqAvg : ℚ
  frameId : ℕ
deriving DecidableEq, Repr

/-- One run of `updateVolume` (lines 221–231): if the analyser exists and
the connected flag holds, publish the current frequency average as
`volume`; then, if the connected flag holds, schedule the next tick via
`requestAnimationFrame`. -/
def updateVolumeTick (env : ConnectEnv) (s : SessionState) : SessionState :=
  let s1 :=
    if s.analyzer.isSome && s.connectedFlag then { s with volume := env.freqAvg } else s
  if s1.connectedFlag then { s1 with animationFrame := some env.frameId } else s1

/-- Operation `connect` (lines 105–241) up to its own completion (the remote
`open`/`message`/`close`/`error` callbacks fire later and are modelled
separately): the idempotency guard, `setStatus('connecting')`, creation
of the two audio contexts, the analyser and the gain node, then
`getUserMedia`.  On success: store the stream and the session promise,
set the connected flag and start the volume polling loop (one
`updateVolume` run).  On failure (the `catch` block):
`setStatus('error')` then `disconnect()` — in that order. -/
def connectAttempt (env : ConnectEnv) (s : SessionState) : SessionState :=
  if s.status = LiveSessionStatus.connected ∨ s.status = LiveSessionStatus.connecting then
    s
  else
    let s1 := { s with status := LiveSessionStatus.connecting }
    let s2 := { s1 with
                  inputAudioContext := some ()
                  outputAudioContext := some ()
                  analyzer := some ()
                  outputGain := some () }
    if env.micGranted then
      let s3 := { s2 with mediaStream := some (), session := some () }
      let s4 := { s3 with connectedFlag := true }
      updateVolumeTick env s4
    else
      disconnect { s2 with status := LiveSessionStatus.error }

/-- A `LiveServerMessage` as `onmessage` reads it: the optional inline
audio payload (as the decoded transport bytes) and the `interrupted`
flag. -/
structure ServerMessage where
  audio : Option (List ℕ)
  interrupted : Bool
deriving DecidableEq, Repr

/-- The audio-handling prefix of `onmessage` (lines 170–195).  Returns
the updated state and whether the handler aborted before reaching the
interruption block: it aborts on the early `return` when the output
context is gone, and when `decodeAudioData` raises (the `await` rejects,
skipping the rest of the handler).  Note the cursor is pulled up to the
output clock (line 175) before the decode. -/
def handleAudio (clock : ℚ) (bytes : List ℕ) (s : SessionState) :
    SessionState × Bool :=
  match s.outputAudioContext with
  | none => (s, true)
  | some _ =>
    let s1 := { s with nextStartTime := max s.nextStartTime clock }
    match decodeAudioData bytes 24000 1 with
    | Except.error _ => (s1, true)
    | Except.ok buf =>
      ({ s1 with
           sources := s1.sources ++
             [{ duration := buf.duration, startTime := s1.nextStartTime, ended := false }]
           nextStartTime := s1.nextStartTime + buf.duration },
       false)

/-- Handler `onmessage` (lines 168–205): handle an inline audio payload if
present (schedule its decoded buffer), then, unless the audio path
aborted the handler, handle the `interrupted` flag by force-stopping and
clearing the in-flight set and resetting the cursor to zero.  `clock` is
the output context's `currentTime` during this handler. -/
def onmessage (clock : ℚ) (msg : ServerMessage) (s : SessionState) : SessionState :=
  let p :=
    match msg.audio with
    | some bytes => handleAudio clock bytes s
    | none => (s, false)
  if p.2 then p.1
  else if msg.interrupted then { p.1 with sources := [], nextStartTime := 0 } else p.1

/-! ## Visualizer (`src/components/Visualizer.tsx`) -/

/-- The volume- and activity-dependent style values the `Visualizer`
component computes: the `scale` and `opacity` variables (which drive the
middle ring), the outer pulse's transform scale and opacity, the middle
ring's applied transform scale (`scale * 0.9`), and the inner core's
transform scale. -/
structure VisualizerRender where
  scale : ℚ
  opacity : ℚ
  outerPulseScale : ℚ
  outerPulseOpacity : ℚ
  middleRingTransform : ℚ
  innerCoreScale : ℚ
deriving DecidableEq, Repr

/-- The computation of `Visualizer` (lines 8–41): with `volume` in
`[0, 255]` and the `isActive` flag, the component computes
`scale = isActive ? 1 + (volume/255) * 1.5 : 1`,
`opacity = isActive ? 0.6 + (volume/255) * 0.4 : 0.3`, the outer pulse's
`scale(isActive ? 1 + volume/500 : 0.8)` and opacity
`isActive ? volume/600 : 0`, the middle ring's `scale(scale * 0.9)` with
opacity `opacity`, and the inner core's
`scale(isActive ? 1 + volume/800 : 1)`. -/
def visualizerRender (volume : ℚ) (isActive : Bool) : VisualizerRender :=
  let scale := if isActive then 1 + (volume / 255) * (3 / 2) else 1
  let opacity := if isActive then 3 / 5 + (volume / 255) * (2 / 5) else 3 / 10
  { scale := scale
    opacity := opacity
    outerPulseScale := if isActive then 1 + volume / 500 else 4 / 5
    outerPulseOpacity := if isActive then volume / 600 else 0
    middleRingTransform := scale * (9 / 10)
    innerCoreScale := if isActive then 1 + volume / 800 else 1 }

/-- A session state as it stands while fully connected: every resource
held, status `'connected'`, the polling loop armed. -/
def connectedState : SessionState :=
  { status := LiveSessionStatus.connected
    volume := 0
    inputAudioContext := some ()
    outputAudioContext := some ()
    mediaStream := some ()
    processor := some ()
    inputSource := some ()
    outputGain := some ()
    analyzer := some ()
    session := some ()
    nextStartTime := 0
    sources := []
    animationFrame := some 1
    connectedFlag := true }

/-! ## Helper lemmas -/

theorem scheduleAll_eq (ds : List ℚ) (t : ℚ) (fl : List SourceNode)
    (ht : 0 ≤ t) (hds : ∀ d ∈ ds, 0 ≤ d) :
    scheduleAll 0 ds { nextStartTime := t, inFlight := fl } =
      { nextStartTime := t + ds.sum, inFlight := fl ++ mkHandles t ds } := by
  induction ds generalizing t fl with
  | nil => simp [scheduleAll, mkHandles]
  | cons d ds ih =>
    have hd : 0 ≤ d := hds d (List.mem_cons_self d ds)
    have hrest : ∀ x ∈ ds, 0 ≤ x := fun x hx => hds x (List.mem_cons_of_mem d hx)
    have step : scheduleAll 0 (d :: ds) { nextStartTime := t, inFlight := fl } =
        scheduleAll 0 ds
          { nextStartTime := t + d,
            inFlight := fl ++ [{ duration := d, startTime := t, ended := false }] } := by
      simp [scheduleAll, scheduleBuffer, max_eq_left ht]
    rw [step, ih (t + d) _ (add_nonneg ht hd) hrest]
    simp [mkHandles, add_assoc]

theorem mkHandles_map_startTime (ds : List ℚ) (t : ℚ) :
    (mkHandles t ds).map SourceNode.startTime = cumStarts t ds := by
  induction ds generalizing t with
  | nil => rfl
  | cons d ds ih => simp [mkHandles, cumStarts, ih]

theorem mkHandles_startTime_lb (ds : List ℚ) (t : ℚ) (hds : ∀ d ∈ ds, 0 ≤ d) :
    ∀ n ∈ mkHandles t ds, t ≤ n.startTime := by
  induction ds generalizing t with
  | nil => intro n hn; simp [mkHandles] at hn
  | cons d ds ih =>
    intro n hn
    have hd : 0 ≤ d := hds d (List.mem_cons_self d ds)
    have hrest : ∀ x ∈ ds, 0 ≤ x := fun x hx => hds x (List.mem_cons_of_mem d hx)
    rw [mkHandles, List.mem_cons] at hn
    rcases hn with rfl | hn
    · exact le_refl t
    · have := ih (t + d) hrest n hn
      linarith

theorem mkHandles_pairwise (ds : List ℚ) (t : ℚ) (hds : ∀ d ∈ ds, 0 ≤ d) :
    List.Pairwise (fun a b => a.startTime + a.duration ≤ b.startTime) (mkHandles t ds) := by
  induction ds generalizing t with
  | nil => simp [mkHandles]
  | cons d ds ih =>
    have hd : 0 ≤ d := hds d (List.mem_cons_self d ds)
    have hrest : ∀ x ∈ ds, 0 ≤ x := fun x hx => hds x (List.mem_cons_of_mem d hx)
    rw [mkHandles, List.pairwise_cons]
    refine ⟨?_, ih (t + d) hrest⟩
    intro b hb
    have := mkHandles_startTime_lb ds (t + d) hrest b hb
    simpa using this

theorem mkHandles_chain (ds : List ℚ) (t : ℚ) :
    List.Chain' (fun a b => a.startTime + a.duration = b.startTime) (mkHandles t ds) := by
  induction ds generalizing t with
  | nil => simp [mkHandles]
  | cons d ds ih =>
    cases ds with
    | nil => simp [mkHandles]
    | cons e es =>
      have h2 : mkHandles (t + d) (e :: es) =
          { duration := e, startTime := t + d, ended := false } :: mkHandles (t + d + e) es :=
        rfl
      rw [mkHandles, h2, List.chain'_cons]
      exact ⟨rfl, by rw [← h2]; exact ih (t + d)⟩

theorem encodeSample_bounds (s : ℚ) :
    -32768 ≤ encodeSample s ∧ encodeSample s ≤ 32767 := by
  unfold encodeSample clampInt
  exact ⟨le_max_left _ _, max_le (by norm_num) (min_le_right _ _)⟩

theorem bytesToInt16_sampleToBytes (v : ℤ) (h1 : -32768 ≤ v) (h2 : v ≤ 32767) :
    bytesToInt16 ((v % 65536).toNat % 256) ((v % 65536).toNat / 256) = v := by
  simp only [bytesToInt16]
  split <;> omega

theorem bytesToSamples_samplesToBytes (vs : List ℤ)
    (h : ∀ v ∈ vs, -32768 ≤ v ∧ v ≤ 32767) :
    bytesToSamples (samplesToBytes vs) = vs := by
  induction vs with
  | nil => rfl
  | cons v vs ih =>
    obtain ⟨h1, h2⟩ := h v (List.mem_cons_self v vs)
    have hrest : ∀ x ∈ vs, -32768 ≤ x ∧ x ≤ 32767 :=
      fun x hx => h x (List.mem_cons_of_mem v hx)
    calc bytesToSamples (samplesToBytes (v :: vs))
        = bytesToInt16 ((v % 65536).toNat % 256) ((v % 65536).toNat / 256) ::
            bytesToSamples (samplesToBytes vs) := rfl
      _ = v :: vs := by rw [bytesToInt16_sampleToBytes v h1 h2, ih hrest]

theorem samplesToBytes_length (vs : List ℤ) :
    (samplesToBytes vs).length = 2 * vs.length := by
  induction vs with
  | nil => rfl
  | cons v vs ih =>
    simp only [samplesToBytes, sampleToBytes, List.length_append, List.length_cons,
      List.length_nil, ih]
    ring

theorem map_getD_range (l : List ℚ) :
    (List.range l.length).map (fun i => l.getD i 0) = l := by
  induction l with
  | nil => rfl
  | cons a l ih =>
    rw [List.length_cons, List.range_succ_eq_map, List.map_cons, List.map_map]
    simp only [Function.comp_def, List.getD_cons_zero, List.getD_cons_succ]
    rw [ih]

theorem deinterleave_one (flat : List ℚ) : deinterleave 0 1 flat = flat := by
  unfold deinterleave
  simp only [Nat.div_one, Nat.mul_one, Nat.add_zero]
  exact map_getD_range flat

theorem decodeAudioData_mono (bytes : List ℕ) (rate : ℕ) (h : bytes.length % 2 = 0) :
    decodeAudioData bytes rate 1 =
      Except.ok
        { channelData := [(bytesToSamples bytes).map decodeSample], sampleRate := rate } := by
  unfold decodeAudioData
  rw [if_pos (by simpa using h)]
  have hr : List.range 1 = [0] := rfl
  rw [hr, List.map_cons, List.map_nil, deinterleave_one]

theorem decodeSample_encodeSample_close (s : ℚ) (h1 : -1 ≤ s) (h2 : s ≤ 1) :
    |decodeSample (encodeSample s) - s| ≤ 1 / 32768 := by
  have hfl : (⌊s * 32768⌋ : ℚ) ≤ s * 32768 := Int.floor_le _
  have hfl2 : s * 32768 < ⌊s * 32768⌋ + 1 := Int.lt_floor_add_one _
  have hlb : (-32768 : ℤ) ≤ ⌊s * 32768⌋ := by
    rw [Int.le_floor]
    push_cast
    linarith
  have hub : ⌊s * 32768⌋ ≤ 32768 := by
    rw [Int.floor_le_iff]
    push_cast
    linarith
  rcases lt_or_eq_of_le hub with hlt | heq
  · have hv : ⌊s * 32768⌋ ≤ 32767 := by omega
    have henc : encodeSample s = ⌊s * 32768⌋ := by
      unfold encodeSample clampInt
      rw [min_eq_left hv, max_eq_right hlb]
    rw [henc]
    unfold decodeSample
    rw [abs_le]
    have hv' : (⌊s * 32768⌋ : ℚ) ≤ 32767 := by exact_mod_cast hv
    constructor <;> linarith
  · have hs1 : s = 1 := by
      have h32 : (32768 : ℚ) ≤ s * 32768 := by
        have : (32768 : ℤ) ≤ ⌊s * 32768⌋ := le_of_eq heq.symm
        have := Int.le_floor.mp this
        push_cast at this
        linarith
      linarith
    subst hs1
    have henc : encodeSample 1 = 32767 := by
      unfold encodeSample clampInt
      norm_num
    rw [henc]
    unfold decodeSample
    rw [abs_le]
    norm_num

theorem tryStop_ok (n : SourceNode) : tryStop n = Except.ok () := by
  cases h : stopNode n with
  | ok u => simp [tryStop, h]
  | error e => simp [tryStop, h]

theorem stopAllNodes_ok (ns : List SourceNode) : stopAllNodes ns = Except.ok () := by
  induction ns with
  | nil => rfl
  | cons n ns ih =>
    simp only [stopAllNodes, tryStop_ok, ih]
    rfl

/-! ## Claim theorems -/

/-- C10: when `isActive` is false the Visualizer's rendered output is
independent of the volume input — for every pair of volume values the
computed scales and opacities coincide, with the computed `scale` 1 and
`opacity` 0.3 driving the middle ring, outer-pulse scale 0.8 and
opacity 0, and inner-core scale 1; volume is only reflected visually
while the session is active. -/
theorem visualizer_inactive_independent_of_volume (v1 v2 : ℚ) :
    visualizerRender v1 false = visualizerRender v2 false ∧
    (visualizerRender v1 false).scale = 1 ∧
    (visualizerRender v1 false).opacity = 3 / 10 ∧
    (visualizerRender v1 false).outerPulseScale = 4 / 5 ∧
    (visualizerRender v1 false).outerPulseOpacity = 0 ∧
    (visualizerRender v1 false).innerCoreScale = 1 := by
  refine ⟨?_, rfl, rfl, rfl, rfl, rfl⟩
  simp [visualizerRender]

/-- C3: calling `connect()` while the session is already `'connecting'`
or `'connected'` is ignored by the idempotency guard — the state is
returned unchanged, so no additional setup attempt runs and no
additional resources are created. -/
theorem connect_noop_while_connecting_or_connected (env : ConnectEnv) (s : SessionState)
    (h : s.status = LiveSessionStatus.connecting ∨ s.status = LiveSessionStatus.connected) :
    connectAttempt env s = s := by
  rcases h with h | h <;> simp [connectAttempt, h]

/-- Witness for C3: the guard fires on a concrete `'connecting'` state. -/
theorem connect_noop_while_connecting_or_connected_witness :
    connectAttempt { micGranted := true, freqAvg := 5, frameId := 2 }
        { connectedState with status := LiveSessionStatus.connecting } =
      { connectedState with status := LiveSessionStatus.connecting } :=
  connect_noop_while_connecting_or_connected _ _ (Or.inl rfl)

/-- C1 (code bug): on microphone permission denial during `connect()`,
the `catch` block runs `setStatus('error')` and then `disconnect()`,
but `disconnect` unconditionally ends with `setStatus('disconnected')`,
so the session settles in `'disconnected'` — not `'error'` as the spec
(and the sibling `onerror` handler, which orders the two calls the
other way) intends.  Teardown itself is complete: no device or resource
handles remain held and no polling tick is pending. -/
theorem connect_mic_denied_settles_disconnected :
    (connectAttempt { micGranted := false, freqAvg := 0, frameId := 1 } initialState).status =
      LiveSessionStatus.disconnected ∧
    (connectAttempt { micGranted := false, freqAvg := 0, frameId := 1 } initialState).status ≠
      LiveSessionStatus.error ∧
    (connectAttempt { micGranted := false, freqAvg := 0, frameId := 1 } initialState).mediaStream =
      none ∧
    (connectAttempt { micGranted := false, freqAvg := 0, frameId := 1 }
        initialState).inputAudioContext = none ∧
    (connectAttempt { micGranted := false, freqAvg := 0, frameId := 1 }
        initialState).outputAudioContext = none ∧
    (connectAttempt { micGranted := false, freqAvg := 0, frameId := 1 } initialState).processor =
      none ∧
    (connectAttempt { micGranted := false, freqAvg := 0, frameId := 1 } initialState).inputSource =
      none ∧
    (connectAttempt { micGranted := false, freqAvg := 0, frameId := 1 } initialState).sources =
      [] ∧
    (connectAttempt { micGranted := false, freqAvg := 0, frameId := 1 }
        initialState).animationFrame = none ∧
    (connectAttempt { micGranted := false, freqAvg := 0, frameId := 1 } initialState).volume =
      0 := by
  decide

/-- C7: `disconnect` never raises (its only fallible step, stopping
in-flight sources, swallows its exceptions), it is idempotent (running
it on an already-torn-down session reproduces that same state, i.e. it
performs no operation), and in every case it ends with status
`'disconnected'`, volume 0, the in-flight set empty and every
device/resource handle it owns released. -/
theorem disconnect_idempotent_and_safe (s : SessionState) :
    disconnectE s = Except.ok (disconnect s) ∧
    disconnect (disconnect s) = disconnect s ∧
    (disconnect s).status = LiveSessionStatus.disconnected ∧
    (disconnect s).volume = 0 ∧
    (disconnect s).sources = [] ∧
    (disconnect s).mediaStream = none ∧
    (disconnect s).inputAudioContext = none ∧
    (disconnect s).outputAudioContext = none ∧
    (disconnect s).processor = none ∧
    (disconnect s).inputSource = none ∧
    (disconnect s).animationFrame = none ∧
    (disconnect s).connectedFlag = false := by
  refine ⟨?_, rfl, rfl, rfl, rfl, rfl, rfl, rfl, rfl, rfl, rfl, rfl⟩
  simp only [disconnectE, stopAllNodes_ok]
  rfl

/-- C4: `interrupt` force-stops every in-flight handle with the
exception of an already-ended handle swallowed (`tryStop` never
raises), clears the in-flight set and resets the `nextStartTime` cursor
to zero; running it again on the resulting state is a no-op yielding
the same state. -/
theorem interrupt_clears_and_is_idempotent (st : SchedulerState) :
    interrupt st = Except.ok { nextStartTime := 0, inFlight := [] } ∧
    interrupt { nextStartTime := 0, inFlight := [] } =
      Except.ok { nextStartTime := 0, inFlight := [] } ∧
    (∀ n : SourceNode, tryStop n = Except.ok ()) := by
  refine ⟨?_, ?_, tryStop_ok⟩ <;>
    · simp only [interrupt, stopAllNodes_ok]
      rfl

/-- C2 counterexample: volume polling does NOT begin when the remote
channel signals open.  After a successful `connect()` run on the fresh
state — with no `open` event delivered yet, so the status is still
`'connecting'` — a volume tick has already published the analyser
average and the next animation frame is already scheduled. -/
theorem volume_polling_active_before_open :
    (connectAttempt { micGranted := true, freqAvg := 7, frameId := 3 } initialState).status =
      LiveSessionStatus.connecting ∧
    (connectAttempt { micGranted := true, freqAvg := 7, frameId := 3 } initialState).status ≠
      LiveSessionStatus.connected ∧
    (connectAttempt { micGranted := true, freqAvg := 7, frameId := 3 }
        initialState).animationFrame = some 3 ∧
    (connectAttempt { micGranted := true, freqAvg := 7, frameId := 3 } initialState).volume =
      7 := by
  decide

/-- C2 (amended): volume polling begins at the end of a successful
`connect()` setup — when the `connectedRef` flag is raised, while the
status is still `'connecting'` until the remote `open` arrives; each
`updateVolume` tick publishes and self-reschedules only while that
connected flag holds (a tick run with the flag down changes nothing and
schedules nothing); and `disconnect` resets the published volume to
zero, lowers the flag and cancels the pending tick. -/
theorem volume_polling_loop_amended (env : ConnectEnv) (s : SessionState)
    (hmic : env.micGranted = true)
    (hs : s.status = LiveSessionStatus.disconnected ∨ s.status = LiveSessionStatus.error) :
    ((connectAttempt env s).status = LiveSessionStatus.connecting ∧
      (connectAttempt env s).animationFrame = some env.frameId ∧
      (connectAttempt env s).connectedFlag = true) ∧
    (∀ t : SessionState, t.connectedFlag = false → updateVolumeTick env t = t) ∧
    (∀ t : SessionState, t.connectedFlag = true →
      (updateVolumeTick env t).animationFrame = some env.frameId) ∧
    ((disconnect s).volume = 0 ∧ (disconnect s).connectedFlag = false ∧
      (disconnect s).animationFrame = none) := by
  refine ⟨?_, ?_, ?_, rfl, rfl, rfl⟩
  · rcases hs with h | h <;>
      simp [connectAttempt, h, hmic, updateVolumeTick]
  · intro t ht
    simp [updateVolumeTick, ht]
  · intro t ht
    cases han : t.analyzer.isSome <;> simp [updateVolumeTick, ht, han]

/-- Witness for C2 (amended): the amended property at a concrete
environment and the fresh state. -/
theorem volume_polling_loop_amended_witness :
    ((connectAttempt { micGranted := true, freqAvg := 7, frameId := 3 } initialState).status =
        LiveSessionStatus.connecting ∧
      (connectAttempt { micGranted := true, freqAvg := 7, frameId := 3 }
          initialState).animationFrame = some 3 ∧
      (connectAttempt { micGranted := true, freqAvg := 7, frameId := 3 }
          initialState).connectedFlag = true) ∧
    (∀ t : SessionState, t.connectedFlag = false →
      updateVolumeTick { micGranted := true, freqAvg := 7, frameId := 3 } t = t) ∧
    (∀ t : SessionState, t.connectedFlag = true →
      (updateVolumeTick { micGranted := true, freqAvg := 7, frameId := 3 } t).animationFrame =
        some 3) ∧
    ((disconnect initialState).volume = 0 ∧
      (disconnect initialState).connectedFlag = false ∧
      (disconnect initialState).animationFrame = none) :=
  volume_polling_loop_amended { micGranted := true, freqAvg := 7, frameId := 3 } initialState
    rfl (Or.inl rfl)

/-- C6: a remote-signaled interruption is not a state transition — for a
message carrying the `interrupted` flag (with or without an audio
payload), whenever the session is `'connected'` the handler leaves the
status `'connected'` and every session field other than the Playback
Scheduler's in-flight set and `nextStartTime` cursor unchanged; for a
pure interruption message the in-flight set is emptied and the cursor
reset to zero. -/
theorem interruption_is_not_a_state_transition (clock : ℚ) (msg : ServerMessage)
    (s : SessionState) (hint : msg.interrupted = true)
    (hs : s.status = LiveSessionStatus.connected) :
    (onmessage clock msg s).status = LiveSessionStatus.connected ∧
    (onmessage clock msg s).volume = s.volume ∧
    (onmessage clock msg s).inputAudioContext = s.inputAudioContext ∧
    (onmessage clock msg s).outputAudioContext = s.outputAudioContext ∧
    (onmessage clock msg s).mediaStream = s.mediaStream ∧
    (onmessage clock msg s).processor = s.processor ∧
    (onmessage clock msg s).inputSource = s.inputSource ∧
    (onmessage clock msg s).outputGain = s.outputGain ∧
    (onmessage clock msg s).analyzer = s.analyzer ∧
    (onmessage clock msg s).session = s.session ∧
    (onmessage clock msg s).animationFrame = s.animationFrame ∧
    (onmessage clock msg s).connectedFlag = s.connectedFlag ∧
    (msg.audio = none → (onmessage clock msg s).sources = [] ∧
      (onmessage clock msg s).nextStartTime = 0) := by
  cases ha : msg.audio with
  | none => simp [onmessage, ha, hint, hs]
  | some bytes =>
    cases hctx : s.outputAudioContext with
    | none => simp [onmessage, handleAudio, ha, hint, hs, hctx]
    | some u =>
      cases hdec : decodeAudioData bytes 24000 1 with
      | error e => simp [onmessage, handleAudio, ha, hint, hs, hctx, hdec]
      | ok buf => simp [onmessage, handleAudio, ha, hint, hs, hctx, hdec]

/-- Witness for C6: a pure interruption message on a concrete connected
state with one in-flight source. -/
theorem interruption_is_not_a_state_transition_witness :
    (onmessage 2 { audio := none, interrupted := true }
        { connectedState with
            nextStartTime := 5
            sources := [{ duration := 3, startTime := 2, ended := false }] }).status =
      LiveSessionStatus.connected ∧
    (onmessage 2 { audio := none, interrupted := true }
        { connectedState with
            nextStartTime := 5
            sources := [{ duration := 3, startTime := 2, ended := false }] }).volume =
      ({ connectedState with
            nextStartTime := 5
            sources := [{ duration := 3, startTime := 2, ended := false }] } :
        SessionState).volume ∧
    (onmessage 2 { audio := none, interrupted := true }
        { connectedState with
            nextStartTime := 5
            sources := [{ duration := 3, startTime := 2, ended := false }] }).sources = [] ∧
    (onmessage 2 { audio := none, interrupted := true }
        { connectedState with
            nextStartTime := 5
            sources := [{ duration := 3, startTime := 2, ended := false }] }).nextStartTime =
      0 := by
  have h := interruption_is_not_a_state_transition 2 { audio := none, interrupted := true }
    { connectedState with
        nextStartTime := 5
        sources := [{ duration := 3, startTime := 2, ended := false }] } rfl rfl
  exact ⟨h.1, h.2.1, (h.2.2.2.2.2.2.2.2.2.2.2.2 rfl).1, (h.2.2.2.2.2.2.2.2.2.2.2.2 rfl).2⟩

/-- C5: each scheduled buffer starts at `max nextStartTime clock` and
advances the cursor by exactly its duration; and scheduling buffers of
nonnegative durations `d₁ … dN` sequentially from the fresh scheduler
under a non-advancing output clock at 0 yields in-flight handles whose
start times are exactly the cumulative sums `0, d₁, d₁+d₂, …`, whose
playback windows are pairwise non-overlapping, and which are adjacent
gapless (each start equals the previous start plus its duration). -/
theorem schedule_cumulative_starts (ds : List ℚ) (clock d : ℚ) (st : SchedulerState)
    (hds : ∀ x ∈ ds, 0 ≤ x) :
    (scheduleBuffer clock d st).2 = max st.nextStartTime clock ∧
    (scheduleBuffer clock d st).1.nextStartTime = max st.nextStartTime clock + d ∧
    (scheduleAll 0 ds { nextStartTime := 0, inFlight := [] }).inFlight.map
        SourceNode.startTime = cumStarts 0 ds ∧
    List.Pairwise (fun a b => a.startTime + a.duration ≤ b.startTime)
      (scheduleAll 0 ds { nextStartTime := 0, inFlight := [] }).inFlight ∧
    List.Chain' (fun a b => a.startTime + a.duration = b.startTime)
      (scheduleAll 0 ds { nextStartTime := 0, inFlight := [] }).inFlight := by
  have h := scheduleAll_eq ds 0 [] le_rfl hds
  refine ⟨rfl, rfl, ?_, ?_, ?_⟩ <;> rw [h]
  · simpa using mkHandles_map_startTime ds 0
  · simpa using mkHandles_pairwise ds 0 hds
  · simpa using mkHandles_chain ds 0

/-- Witness for C5: three buffers of durations 1, 2, 3 scheduled from a
concrete scheduler state. -/
theorem schedule_cumulative_starts_witness :
    (∀ x ∈ [(1 : ℚ), 2, 3], 0 ≤ x) ∧
    ((scheduleBuffer 5 2 { nextStartTime := 3, inFlight := [] }).2 = max 3 5 ∧
      (scheduleBuffer 5 2 { nextStartTime := 3, inFlight := [] }).1.nextStartTime =
        max 3 5 + 2 ∧
      (scheduleAll 0 [(1 : ℚ), 2, 3] { nextStartTime := 0, inFlight := [] }).inFlight.map
          SourceNode.startTime = cumStarts 0 [(1 : ℚ), 2, 3] ∧
      List.Pairwise (fun a b => a.startTime + a.duration ≤ b.startTime)
        (scheduleAll 0 [(1 : ℚ), 2, 3] { nextStartTime := 0, inFlight := [] }).inFlight ∧
      List.Chain' (fun a b => a.startTime + a.duration = b.startTime)
        (scheduleAll 0 [(1 : ℚ), 2, 3] { nextStartTime := 0, inFlight := [] }).inFlight) :=
  ⟨by decide, schedule_cumulative_starts [(1 : ℚ), 2, 3] 5 2
    { nextStartTime := 3, inFlight := [] } (by decide)⟩

/-- C8 counterexample: the session state is NOT otherwise unchanged
after a malformed chunk.  On a connected state with cursor 0 and output
clock 1, a one-byte payload (length 1, not a multiple of
`2 × 1`) is rejected by the decoder and dropped, yet the handler has
already advanced `nextStartTime` to `max 0 1 = 1` before the decode, so
the resulting state differs from the original. -/
theorem malformed_chunk_changes_cursor :
    decodeAudioData [0] 24000 1 = Except.error "Invalid byte length for audio data" ∧
    (onmessage 1 { audio := some [0], interrupted := false } connectedState).status =
      LiveSessionStatus.connected ∧
    (onmessage 1 { audio := some [0], interrupted := false } connectedState).sources = [] ∧
    (onmessage 1 { audio := some [0], interrupted := false } connectedState).nextStartTime =
      1 ∧
    connectedState.nextStartTime = 0 ∧
    onmessage 1 { audio := some [0], interrupted := false } connectedState ≠
      connectedState := by
  refine ⟨rfl, rfl, rfl, by decide, rfl, by decide⟩

/-- C8 (amended): the decoder rejects any byte sequence whose length is
not a whole multiple of `2 × channelCount`, and the error is local to
the single message: the malformed chunk is dropped (no handle is
scheduled), the session stays `'connected'`, and every session field is
unchanged except `nextStartTime`, which the handler has already pulled
up to `max nextStartTime clock` before the decode. -/
theorem decode_error_is_local_to_message (clock : ℚ) (rate channels : ℕ) (b2 : List ℕ)
    (msg : ServerMessage) (s : SessionState) (bytes : List ℕ)
    (hb : ¬ b2.length % (2 * channels) = 0)
    (hmsg : msg.audio = some bytes)
    (hbytes : ¬ bytes.length % 2 = 0)
    (hs : s.status = LiveSessionStatus.connected)
    (hctx : s.outputAudioContext = some ()) :
    decodeAudioData b2 rate channels = Except.error "Invalid byte length for audio data" ∧
    (onmessage clock msg s).status = LiveSessionStatus.connected ∧
    (onmessage clock msg s).sources = s.sources ∧
    (onmessage clock msg s).volume = s.volume ∧
    (onmessage clock msg s).inputAudioContext = s.inputAudioContext ∧
    (onmessage clock msg s).outputAudioContext = s.outputAudioContext ∧
    (onmessage clock msg s).mediaStream = s.mediaStream ∧
    (onmessage clock msg s).processor = s.processor ∧
    (onmessage clock msg s).inputSource = s.inputSource ∧
    (onmessage clock msg s).outputGain = s.outputGain ∧
    (onmessage clock msg s).analyzer = s.analyzer ∧
    (onmessage clock msg s).session = s.session ∧
    (onmessage clock msg s).animationFrame = s.animationFrame ∧
    (onmessage clock msg s).connectedFlag = s.connectedFlag ∧
    (onmessage clock msg s).nextStartTime = max s.nextStartTime clock := by
  have hdec : decodeAudioData bytes 24000 1 =
      Except.error "Invalid byte length for audio data" := by
    simp only [decodeAudioData]
    rw [if_neg (by simpa using hbytes)]
  refine ⟨?_, ?_⟩
  · simp only [decodeAudioData]
    rw [if_neg hb]
  · simp [onmessage, handleAudio, hmsg, hctx, hdec, hs]

/-- Witness for C8 (amended): a one-byte chunk on a concrete connected
state with a nonzero clock. -/
theorem decode_error_is_local_to_message_witness :
    decodeAudioData [0, 1, 2] 24000 2 =
      Except.error "Invalid byte length for audio data" ∧
    (onmessage 1 { audio := some [0], interrupted := false } connectedState).status =
      LiveSessionStatus.connected ∧
    (onmessage 1 { audio := some [0], interrupted := false } connectedState).sources =
      connectedState.sources ∧
    (onmessage 1 { audio := some [0], interrupted := false } connectedState).volume =
      connectedState.volume ∧
    (onmessage 1 { audio := some [0], interrupted := false }
        connectedState).inputAudioContext = connectedState.inputAudioContext ∧
    (onmessage 1 { audio := some [0], interrupted := false }
        connectedState).outputAudioContext = connectedState.outputAudioContext ∧
    (onmessage 1 { audio := some [0], interrupted := false } connectedState).mediaStream =
      connectedState.mediaStream ∧
    (onmessage 1 { audio := some [0], interrupted := false } connectedState).processor =
      connectedState.processor ∧
    (onmessage 1 { audio := some [0], interrupted := false } connectedState).inputSource =
      connectedState.inputSource ∧
    (onmessage 1 { audio := some [0], interrupted := false } connectedState).outputGain =
      connectedState.outputGain ∧
    (onmessage 1 { audio := some [0], interrupted := false } connectedState).analyzer =
      connectedState.analyzer ∧
    (onmessage 1 { audio := some [0], interrupted := false } connectedState).session =
      connectedState.session ∧
    (onmessage 1 { audio := some [0], interrupted := false } connectedState).animationFrame =
      connectedState.animationFrame ∧
    (onmessage 1 { audio := some [0], interrupted := false } connectedState).connectedFlag =
      connectedState.connectedFlag ∧
    (onmessage 1 { audio := some [0], interrupted := false } connectedState).nextStartTime =
      max connectedState.nextStartTime 1 :=
  decode_error_is_local_to_message 1 24000 2 [0, 1, 2]
    { audio := some [0], interrupted := false } connectedState [0]
    (by decide) rfl (by decide) rfl rfl

/-- C9: for every PCM frame of samples in `[-1, 1]`, encoding it with
`createBlob` (16-bit signed little-endian, clamped) and decoding the
bytes back at the matching sample rate and channel count succeeds and
yields a mono buffer whose samples are each within `1/32768` of the
corresponding original sample. -/
theorem encode_decode_roundtrip (frame : List ℚ)
    (h : ∀ x ∈ frame, -1 ≤ x ∧ x ≤ 1) :
    decodeAudioData (createBlobData frame) 16000 1 =
      Except.ok
        { channelData := [frame.map (fun x => decodeSample (encodeSample x))],
          sampleRate := 16000 } ∧
    List.Forall₂ (fun a b => |b - a| ≤ 1 / 32768) frame
      (frame.map (fun x => decodeSample (encodeSample x))) := by
  have hlen : (createBlobData frame).length % 2 = 0 := by
    unfold createBlobData
    rw [samplesToBytes_length]
    omega
  have hsam : bytesToSamples (createBlobData frame) = frame.map encodeSample := by
    unfold createBlobData
    refine bytesToSamples_samplesToBytes _ ?_
    intro v hv
    rw [List.mem_map] at hv
    obtain ⟨x, _, rfl⟩ := hv
    exact encodeSample_bounds x
  constructor
  · rw [decodeAudioData_mono _ _ hlen, hsam, List.map_map]
    rfl
  · rw [List.forall₂_map_right_iff, List.forall₂_same]
    intro x hx
    obtain ⟨h1, h2⟩ := h x hx
    exact decodeSample_encodeSample_close x h1 h2

/-- Witness for C9: a concrete four-sample frame, hitting both clamp
edges and an interior sample. -/
theorem encode_decode_roundtrip_witness :
    (∀ x ∈ [(1 : ℚ), -1, 0, 1 / 2], -1 ≤ x ∧ x ≤ 1) ∧
    (decodeAudioData (createBlobData [(1 : ℚ), -1, 0, 1 / 2]) 16000 1 =
        Except.ok
          { channelData :=
              [[(1 : ℚ), -1, 0, 1 / 2].map (fun x => decodeSample (encodeSample x))],
            sampleRate := 16000 } ∧
      List.Forall₂ (fun a b => |b - a| ≤ 1 / 32768) [(1 : ℚ), -1, 0, 1 / 2]
        ([(1 : ℚ), -1, 0, 1 / 2].map (fun x => decodeSample (encodeSample x)))) :=
  ⟨by norm_num [List.forall_mem_cons], encode_decode_roundtrip [(1 : ℚ), -1, 0, 1 / 2]
    (by norm_num [List.forall_mem_cons])⟩

end LiveApi
